import Mathlib

/-!
Shallow embedding of the Baltic regulation-analysis pipeline
(`Task2_version13_VM.py`, which contains two near-duplicate scripts: a
fixed-window variant, "v1", and an interactive variant, "v2").

Modelling conventions:
* JSON values are the inductive `JValue`; Python dictionaries are
  association lists with distinct keys, looked up by first match.
* Python `None` is `JValue.null`.
* Timestamps are rational numbers of minutes; `pd.to_datetime` and the
  CET time zone are abstracted away (a numeric `from` field is already
  the timestamp), since the claims only concern the ordering and
  arithmetic of timestamps.
* Every Python exception caught by the surrounding `try/except` of a
  pipeline stage is modelled by that stage returning its except-branch
  value (`None`, an empty table, or a failure sentinel).
* Floating point numbers are modelled by `ℚ`.
-/

set_option autoImplicit false

/-- A JSON value, as produced by `response.json()`. -/
inductive JValue where
  | null
  | bool (b : Bool)
  | num (q : ℚ)
  | str (s : String)
  | arr (xs : List JValue)
  | obj (fields : List (String × JValue))

/-- Key of the payload envelope field read by `fetch_data`. -/
def kData : String := "data"

/-- Key of the list of raw points read by `process_data`. -/
def kTimeseries : String := "timeseries"

/-- Key of the interval-start field of a raw point. -/
def kFrom : String := "from"

/-- Key of the interval-end field of a raw point. -/
def kTo : String := "to"

/-- Key of the numeric-values field of a raw point. -/
def kValues : String := "values"

/-- Dictionary lookup: first entry with the given key (Python dictionaries
have distinct keys, so first match models `d[k]`). -/
def jlookup : List (String × JValue) → String → Option JValue
  | [], _ => none
  | (k, v) :: rest, key => if k = key then some v else jlookup rest key

/-- Python truthiness (`bool(x)`) of a JSON value: `None`, `False`, zero,
the empty string, the empty list and the empty dictionary are falsy. -/
def pyTruthy : JValue → Bool
  | .null => false
  | .bool b => b
  | .num q => decide (q ≠ 0)
  | .str s => decide (s ≠ "")
  | .arr xs => !xs.isEmpty
  | .obj fields => !fields.isEmpty

/-- Is the value a JSON object (a Python `dict`)? -/
def isObj : JValue → Bool
  | .obj _ => true
  | _ => false

/-- Fields of an object, `[]` otherwise. -/
def objFields : JValue → List (String × JValue)
  | .obj fields => fields
  | _ => []

/-- Does the object have the given key (`k in d`)? Non-objects have no keys. -/
def hasKey (j : JValue) (k : String) : Bool :=
  (jlookup (objFields j) k).isSome

/-- Value of a key of an object (`d.get(k)`), `none` when absent or not an object. -/
def getKey (j : JValue) (k : String) : Option JValue :=
  jlookup (objFields j) k

/-- Outcome of `requests.get(url, params)` followed by `raise_for_status()`
and `response.json()`: either some exception was raised (network failure,
non-success HTTP status, JSON decode error) or a parsed JSON body. -/
inductive HttpResult where
  | failure (msg : String)
  | success (body : JValue)

/-- `fetch_data` (both variants, lines 42-56 and 264-274): on any raised
exception prints a diagnostic and returns `None`; on a parsed body that is
a dictionary containing a `data` key returns its value; otherwise `None`.
The function issues exactly one request, so it is a function of one
`HttpResult`. -/
def fetch_data : HttpResult → JValue
  | .failure _ => .null
  | .success body =>
      match body with
      | .obj fields =>
          match jlookup fields kData with
          | some v => v
          | none => .null
      | _ => .null

/-- Which of the two series a `process_data` call normalizes. -/
inductive DataType where
  | imbalance
  | activation
deriving DecidableEq

/-- A row of a normalized table: the CET timestamp index together with the
extracted value columns (`[baltic_imbalance]` for the imbalance series,
`[up_regulation, down_regulation]` for the activation series). -/
structure NRow where
  timestamp : ℚ
  cols : List JValue

/-- Does `pd.to_datetime` succeed on this point's `from` cell? A present
non-numeric `from` is an unparseable cell (the column conversion raises);
an absent `from` becomes `NaT` and is silently dropped by the window
filter, so it does not fail here. -/
def fromParses (pt : JValue) : Bool :=
  match getKey pt kFrom with
  | some (.num _) => true
  | some _ => false
  | none => true

/-- The timestamp of a point if the point survives the window filter of
`process_data` (`start ≤ timestamp < end`); `none` when the point has no
usable timestamp (`NaT`) or falls outside the window. -/
def inWindow (s e : ℚ) (pt : JValue) : Option ℚ :=
  match getKey pt kFrom with
  | some (.num t) => if s ≤ t ∧ t < e then some t else none
  | _ => none

/-- Column extraction of `process_data`: `values[0]` for the imbalance
series, `values[0]` and `values[1]` for the activation series. `none`
models the exception raised when the `values` cell is missing, is not a
list, or is too short. -/
def extractValues (ty : DataType) (pt : JValue) : Option (List JValue) :=
  match getKey pt kValues with
  | some (.arr vs) =>
      match ty with
      | .imbalance => (vs.get? 0).map (fun v => [v])
      | .activation =>
          match vs.get? 0, vs.get? 1 with
          | some a, some b => some [a, b]
          | _, _ => none
  | _ => none

/-- Builds the normalized rows of the points kept by the window filter;
`none` models an extraction exception aborting the whole call. -/
def buildRows (ty : DataType) (s e : ℚ) : List JValue → Option (List NRow)
  | [] => some []
  | pt :: rest =>
      match inWindow s e pt with
      | none => buildRows ty s e rest
      | some t =>
          match extractValues ty pt with
          | none => none
          | some cs =>
              match buildRows ty s e rest with
              | none => none
              | some rows => some ({ timestamp := t, cols := cs } :: rows)

/-- `process_data` (v1 lines 58-93 against the module-level window
constants, v2 lines 276-303 against its window parameters): reads
`data.get('timeseries', [])`, builds a table, converts and indexes the
`from` column, filters to `start ≤ timestamp < end`, extracts the value
columns, and drops the `from`/`to`/`values` columns. Any exception along
the way (non-dictionary payload, non-list timeseries, a point that is not
a dictionary, a `from`, `to` or `values` column absent from every point —
the column drop raises on a missing `to` column — an unparseable `from`
cell, or a bad `values` cell on a kept row) is caught and yields the
empty table. -/
def process_data (data : JValue) (ty : DataType) (s e : ℚ) : List NRow :=
  match data with
  | .obj fields =>
      match (jlookup fields kTimeseries).getD (.arr []) with
      | .arr pts =>
          if pts.all isObj &&
             pts.any (fun pt => hasKey pt kFrom) &&
             pts.any (fun pt => hasKey pt kTo) &&
             pts.any (fun pt => hasKey pt kValues) &&
             pts.all fromParses
          then (buildRows ty s e pts).getD []
          else []
      | _ => []
  | _ => []

/-- A structurally invalid raw payload in the sense of the specification:
the payload is not a dictionary, its `timeseries` entry is present but not
a list, the timeseries is empty (also when the `timeseries` key is absent,
since `data.get('timeseries', [])` then yields the empty list), or the
expected `from`, `values` or `to` fields are missing from every point. -/
def invalidPayload (data : JValue) : Bool :=
  match data with
  | .obj fields =>
      match (jlookup fields kTimeseries).getD (.arr []) with
      | .arr pts =>
          pts.isEmpty ||
          !pts.any (fun pt => hasKey pt kFrom) ||
          !pts.any (fun pt => hasKey pt kValues) ||
          !pts.any (fun pt => hasKey pt kTo)
      | _ => true
  | _ => true

/-- Terminal branch taken by one run of `main` (v1 lines 201-226, v2 lines
368-419): `fetchFailed` prints "Failed to fetch data from one or both
APIs", `noData` prints "No data available for processing", and `completed`
runs `create_visualization` and `analyze_regulation`. -/
inductive RunOutcome where
  | fetchFailed
  | noData
  | completed
deriving DecidableEq

/-- Control flow of `main` after the two fetches: `if imbalance_data and
activation_data:` (Python truthiness, where a `None` from `fetch_data` is
falsy) guards normalization, and `if not imbalance_df.empty and not
activation_df.empty:` guards rendering and analysis. -/
def main_run (r1 r2 : HttpResult) (s e : ℚ) : RunOutcome :=
  let d1 := fetch_data r1
  let d2 := fetch_data r2
  if pyTruthy d1 && pyTruthy d2 then
    if !(process_data d1 .imbalance s e).isEmpty &&
       !(process_data d2 .activation s e).isEmpty
    then .completed
    else .noData
  else .fetchFailed

/-- A row of the normalized imbalance table as consumed by
`analyze_regulation` and `create_visualization`. -/
structure ImbRow where
  timestamp : ℚ
  baltic_imbalance : ℚ
deriving DecidableEq

/-- A row of the normalized activation table as consumed by
`analyze_regulation` and `create_visualization`. -/
structure ActRow where
  timestamp : ℚ
  up_regulation : ℚ
  down_regulation : ℚ
deriving DecidableEq

/-- A row of the joined analysis table with the derived columns of
`analyze_regulation` (both variants). -/
structure AnalysisRow where
  timestamp : ℚ
  baltic_imbalance : ℚ
  up_regulation : ℚ
  down_regulation : ℚ
  imbalance_magnitude : ℚ
  regulation_magnitude : ℚ
  appropriate_regulation : Bool
deriving DecidableEq

/-- `pd.merge(left, right, left_index=True, right_index=True, how='inner')`:
every left row paired with every right row carrying an equal key, in left
order. -/
def joinOn {α β : Type} (k1 : α → ℚ) (k2 : β → ℚ) (xs : List α) (ys : List β) :
    List (α × β) :=
  xs.flatMap fun x => (ys.filter fun y => decide (k2 y = k1 x)).map fun y => (x, y)

/-- The derived columns of `analyze_regulation` for one joined row
(v1 lines 151-160, v2 lines 332-337). -/
def deriveRow (x : ImbRow) (y : ActRow) : AnalysisRow :=
  { timestamp := x.timestamp
    baltic_imbalance := x.baltic_imbalance
    up_regulation := y.up_regulation
    down_regulation := y.down_regulation
    imbalance_magnitude := abs x.baltic_imbalance
    regulation_magnitude := y.up_regulation + y.down_regulation
    appropriate_regulation :=
      (decide (0 < x.baltic_imbalance) && decide (0 < y.down_regulation)) ||
      (decide (x.baltic_imbalance < 0) && decide (0 < y.up_regulation)) }

/-- The joined analysis table of the interactive variant (v2 lines
331-337); the fixed-window variant computes the same rows and then appends
`hour` and `day` columns. -/
def analysisRows (xs : List ImbRow) (ys : List ActRow) : List AnalysisRow :=
  (joinOn ImbRow.timestamp ActRow.timestamp xs ys).map fun p => deriveRow p.1 p.2

/-- Hour-of-day of a minute-valued timestamp (`index.hour`). -/
def hourOfMinutes (t : ℚ) : ℤ :=
  (Int.floor (t / 60)) % 24

/-- Day index of a minute-valued timestamp (`index.date`). -/
def dayOfMinutes (t : ℚ) : ℤ :=
  Int.floor (t / 1440)

/-- A row of the fixed-window variant's analysis table, which additionally
carries the `hour` and `day` columns (v1 lines 162-164); those columns are
serialized into its CSV. -/
structure AnalysisRowV1 where
  core : AnalysisRow
  hour : ℤ
  day : ℤ
deriving DecidableEq

/-- The joined analysis table of the fixed-window variant (v1 lines
147-164). -/
def analysisRows_v1 (xs : List ImbRow) (ys : List ActRow) : List AnalysisRowV1 :=
  (joinOn ImbRow.timestamp ActRow.timestamp xs ys).map fun p =>
    { core := deriveRow p.1 p.2
      hour := hourOfMinutes p.1.timestamp
      day := dayOfMinutes p.1.timestamp }

/-- Python division as a partial operation on rationals: a zero divisor
has no rational value (`ZeroDivisionError`, or an invalid NumPy scalar
division), modelled by `none`. -/
def pydiv (a b : ℚ) : Option ℚ :=
  if b = 0 then none else some (a / b)

/-- The regulation-effectiveness computation of `analyze_regulation`
(v1 lines 167-169, v2 lines 339-341):
`(effective_periods / total_periods) * 100`, computed unconditionally —
there is no emptiness guard in the source, so on an empty joined table the
division is reached with a zero divisor. -/
def effectiveness_div (rows : List AnalysisRow) : Option ℚ :=
  (pydiv ((rows.countP fun r => r.appropriate_regulation) : ℚ)
      ((rows.length : ℚ))).map fun q => q * 100

/-- The effectiveness computation of the fixed-window variant's
`analyze_regulation` (v1 lines 167-169), over its richer rows. -/
def effectiveness_div_v1 (rows : List AnalysisRowV1) : Option ℚ :=
  (pydiv ((rows.countP fun r => r.core.appropriate_regulation) : ℚ)
      ((rows.length : ℚ))).map fun q => q * 100

/-- The three series drawn by the fixed-window variant's
`create_visualization` (v1 lines 104-109): imbalance, up-regulation, and
the negated down-regulation. -/
def rendered_series_v1 (imb : List ImbRow) (act : List ActRow) :
    List (ℚ × ℚ) × List (ℚ × ℚ) × List (ℚ × ℚ) :=
  (imb.map fun r => (r.timestamp, r.baltic_imbalance),
   act.map fun r => (r.timestamp, r.up_regulation),
   act.map fun r => (r.timestamp, -r.down_regulation))

/-- The three series drawn by the interactive variant's
`create_visualization` (v2 lines 308-310): imbalance, up-regulation, and
the down-regulation as-is (not negated). -/
def rendered_series_v2 (imb : List ImbRow) (act : List ActRow) :
    List (ℚ × ℚ) × List (ℚ × ℚ) × List (ℚ × ℚ) :=
  (imb.map fun r => (r.timestamp, r.baltic_imbalance),
   act.map fun r => (r.timestamp, r.up_regulation),
   act.map fun r => (r.timestamp, r.down_regulation))

/-- The end-value acceptance test of `get_valid_datetime` (v2 lines
251-257), over timestamps in minutes: a candidate end `e` is rejected when
`e ≤ s` (`date_obj <= start_date_cet`) or when the whole-day count of the
span exceeds 30 (`(date_obj - start_date_cet).days > 30`, where
`timedelta.days` is the floor of the span in days). -/
def accept_end (s e : ℤ) : Bool :=
  if e ≤ s then false
  else if 30 < Int.fdiv (e - s) 1440 then false
  else true

/-! ## Helper lemmas -/

theorem inWindow_bounds {s e : ℚ} {pt : JValue} {t : ℚ}
    (h : inWindow s e pt = some t) : s ≤ t ∧ t < e := by
  unfold inWindow at h
  split at h
  · split at h
    · rename_i hcond
      injection h with h
      subst h
      exact hcond
    · exact absurd h (by simp)
  · exact absurd h (by simp)

theorem buildRows_bounds (ty : DataType) (s e : ℚ) (pts : List JValue) :
    ∀ rows, buildRows ty s e pts = some rows →
      ∀ r ∈ rows, s ≤ r.timestamp ∧ r.timestamp < e := by
  induction pts with
  | nil =>
      intro rows h r hr
      unfold buildRows at h
      injection h with h
      subst h
      exact absurd hr (by simp)
  | cons pt rest ih =>
      intro rows h r hr
      unfold buildRows at h
      split at h
      · exact ih rows h r hr
      · rename_i t ht
        split at h
        · exact absurd h (by simp)
        · rename_i cs hcs
          split at h
          · exact absurd h (by simp)
          · rename_i rows2 hrows2
            injection h with h
            subst h
            rcases List.mem_cons.mp hr with hr | hr
            · subst hr
              exact inWindow_bounds ht
            · exact ih rows2 hrows2 r hr

theorem process_data_empty_of_invalid (data : JValue) (ty : DataType) (s e : ℚ)
    (h : invalidPayload data = true) : process_data data ty s e = [] := by
  cases data with
  | obj fields =>
      simp only [invalidPayload] at h
      simp only [process_data]
      generalize (jlookup fields kTimeseries).getD (JValue.arr []) = v at h ⊢
      cases v with
      | arr pts =>
          simp only [Bool.or_eq_true, Bool.not_eq_true'] at h
          rcases h with ((h | h) | h) | h
          · have hnil : pts = [] := by simpa using h
            subst hnil
            rfl
          · simp [h]
          · simp [h]
          · simp [h]
      | null => rfl
      | bool b => rfl
      | num q => rfl
      | str s2 => rfl
      | obj fs2 => rfl
  | null => rfl
  | bool b => rfl
  | num q => rfl
  | str s2 => rfl
  | arr xs2 => rfl

/-! ## Claim theorems -/

/-- C1: for every row of the joined analysis table, `appropriate_regulation`
is true iff `(baltic_imbalance > 0 and down_regulation > 0) or
(baltic_imbalance < 0 and up_regulation > 0)`; in particular it is false
whenever `baltic_imbalance = 0`, regardless of the regulation values. -/
theorem appropriate_regulation_iff (xs : List ImbRow) (ys : List ActRow)
    (r : AnalysisRow) (hr : r ∈ analysisRows xs ys) :
    (r.appropriate_regulation = true ↔
      ((0 < r.baltic_imbalance ∧ 0 < r.down_regulation) ∨
       (r.baltic_imbalance < 0 ∧ 0 < r.up_regulation))) ∧
    (r.baltic_imbalance = 0 → r.appropriate_regulation = false) := by
  obtain ⟨p, hp, rfl⟩ := List.mem_map.mp hr
  constructor
  · simp [deriveRow, Bool.or_eq_true, Bool.and_eq_true, decide_eq_true_eq]
  · intro h0
    simp only [deriveRow] at h0 ⊢
    simp [h0]

theorem appropriate_regulation_iff_witness :
    ((AnalysisRow.mk 0 150 80 20 150 100 true).appropriate_regulation = true ↔
      ((0 < (AnalysisRow.mk 0 150 80 20 150 100 true).baltic_imbalance ∧
        0 < (AnalysisRow.mk 0 150 80 20 150 100 true).down_regulation) ∨
       ((AnalysisRow.mk 0 150 80 20 150 100 true).baltic_imbalance < 0 ∧
        0 < (AnalysisRow.mk 0 150 80 20 150 100 true).up_regulation))) ∧
    ((AnalysisRow.mk 0 150 80 20 150 100 true).baltic_imbalance = 0 →
      (AnalysisRow.mk 0 150 80 20 150 100 true).appropriate_regulation = false) :=
  appropriate_regulation_iff [ImbRow.mk 0 150] [ActRow.mk 0 80 20]
    (AnalysisRow.mk 0 150 80 20 150 100 true)
    (by norm_num [analysisRows, joinOn, deriveRow])

/-- C3: for every row of the joined analysis table, `imbalance_magnitude`
equals the absolute value of `baltic_imbalance`, and `regulation_magnitude`
equals `up_regulation + down_regulation`. -/
theorem magnitudes_correct (xs : List ImbRow) (ys : List ActRow)
    (r : AnalysisRow) (hr : r ∈ analysisRows xs ys) :
    r.imbalance_magnitude = abs r.baltic_imbalance ∧
    r.regulation_magnitude = r.up_regulation + r.down_regulation := by
  obtain ⟨p, hp, rfl⟩ := List.mem_map.mp hr
  simp [deriveRow]

theorem magnitudes_correct_witness :
    (AnalysisRow.mk 0 (-30) 5 0 30 5 true).imbalance_magnitude =
      abs (AnalysisRow.mk 0 (-30) 5 0 30 5 true).baltic_imbalance ∧
    (AnalysisRow.mk 0 (-30) 5 0 30 5 true).regulation_magnitude =
      (AnalysisRow.mk 0 (-30) 5 0 30 5 true).up_regulation +
        (AnalysisRow.mk 0 (-30) 5 0 30 5 true).down_regulation :=
  magnitudes_correct [ImbRow.mk 0 (-30)] [ActRow.mk 0 5 0]
    (AnalysisRow.mk 0 (-30) 5 0 30 5 true)
    (by norm_num [analysisRows, joinOn, deriveRow])

/-- C4: for every raw payload and every window `[s, e)`, every row of the
table produced by `process_data` has a timestamp `t` with `s ≤ t < e`
(the filter is on the exact requested window passed to it, not on the
3-hour-widened fetch window, which only affects the HTTP request). -/
theorem process_data_rows_in_window (data : JValue) (ty : DataType) (s e : ℚ)
    (r : NRow) (hr : r ∈ process_data data ty s e) :
    s ≤ r.timestamp ∧ r.timestamp < e := by
  cases data with
  | obj fields =>
      simp only [process_data] at hr
      generalize (jlookup fields kTimeseries).getD (JValue.arr []) = v at hr
      cases v with
      | arr pts =>
          have hr2 : r ∈ (if pts.all isObj &&
                pts.any (fun pt => hasKey pt kFrom) &&
                pts.any (fun pt => hasKey pt kTo) &&
                pts.any (fun pt => hasKey pt kValues) &&
                pts.all fromParses
              then (buildRows ty s e pts).getD []
              else []) := hr
          split at hr2
          · cases hb : buildRows ty s e pts with
            | none => rw [hb] at hr2; exact absurd hr2 (by simp)
            | some rows =>
                rw [hb] at hr2
                exact buildRows_bounds ty s e pts rows hb r hr2
          · exact absurd hr2 (by simp)
      | null => exact absurd hr (by simp)
      | bool b => exact absurd hr (by simp)
      | num q => exact absurd hr (by simp)
      | str s2 => exact absurd hr (by simp)
      | obj fs2 => exact absurd hr (by simp)
  | null => exact absurd hr (by simp [process_data])
  | bool b => exact absurd hr (by simp [process_data])
  | num q => exact absurd hr (by simp [process_data])
  | str s2 => exact absurd hr (by simp [process_data])
  | arr xs2 => exact absurd hr (by simp [process_data])

theorem process_data_rows_in_window_witness :
    (0 : ℚ) ≤ (NRow.mk 5 [JValue.num 150]).timestamp ∧
      (NRow.mk 5 [JValue.num 150]).timestamp < 1440 :=
  process_data_rows_in_window
    (JValue.obj [(kTimeseries, JValue.arr
      [JValue.obj [(kFrom, JValue.num 5), (kTo, JValue.num 65),
        (kValues, JValue.arr [JValue.num 150])]])])
    DataType.imbalance 0 1440 (NRow.mk 5 [JValue.num 150])
    (by
      rw [show process_data
          (JValue.obj [(kTimeseries, JValue.arr
            [JValue.obj [(kFrom, JValue.num 5), (kTo, JValue.num 65),
              (kValues, JValue.arr [JValue.num 150])]])])
          DataType.imbalance 0 1440 = [NRow.mk 5 [JValue.num 150]] from rfl]
      exact List.mem_cons_self _ _)

/-- C7: `fetch_data` returns the value of the `data` key exactly when the
parsed top-level response is an object containing a `data` key, and returns
`None` in every other case — a raised exception (which covers non-success
HTTP status via `raise_for_status`), or a successfully parsed response that
is not an object or has no `data` key. The single-shot model (a function
of one `HttpResult`) reflects that no retry is performed. -/
theorem fetch_data_characterization :
    (∀ msg, fetch_data (.failure msg) = .null) ∧
    (∀ fields v, jlookup fields kData = some v →
      fetch_data (.success (.obj fields)) = v) ∧
    (∀ fields, jlookup fields kData = none →
      fetch_data (.success (.obj fields)) = .null) ∧
    (∀ body, isObj body = false → fetch_data (.success body) = .null) := by
  refine ⟨fun _ => rfl, ?_, ?_, ?_⟩
  · intro fields v h
    simp [fetch_data, h]
  · intro fields h
    simp [fetch_data, h]
  · intro body h
    cases body <;> simp_all [fetch_data, isObj]

theorem fetch_data_characterization_witness :
    fetch_data (HttpResult.success (JValue.obj [(kData, JValue.num 7)])) =
      JValue.num 7 :=
  fetch_data_characterization.2.1 [(kData, JValue.num 7)] (JValue.num 7) rfl

/-- C9: for every structurally invalid raw payload (per `invalidPayload`:
missing or empty `timeseries`, or the expected `from`/`values`/`to` fields
absent), `process_data` returns the empty table rather than raising, and
`main` then takes the branch that skips both rendering and analysis and
prints that no data is available. -/
theorem invalid_payload_skips_analysis (r1 r2 : HttpResult) (s e : ℚ)
    (h1 : pyTruthy (fetch_data r1) = true) (h2 : pyTruthy (fetch_data r2) = true)
    (hinv : invalidPayload (fetch_data r1) = true) :
    process_data (fetch_data r1) .imbalance s e = [] ∧
    main_run r1 r2 s e = .noData := by
  have hp := process_data_empty_of_invalid (fetch_data r1) .imbalance s e hinv
  refine ⟨hp, ?_⟩
  unfold main_run
  simp [h1, h2, hp]

theorem invalid_payload_skips_analysis_witness :
    process_data
        (fetch_data (HttpResult.success (JValue.obj
          [(kData, JValue.obj [(kTimeseries, JValue.arr [])])])))
        DataType.imbalance 0 1440 = [] ∧
    main_run
        (HttpResult.success (JValue.obj
          [(kData, JValue.obj [(kTimeseries, JValue.arr [])])]))
        (HttpResult.success (JValue.obj
          [(kData, JValue.obj [(kTimeseries, JValue.arr [])])]))
        0 1440 = RunOutcome.noData :=
  invalid_payload_skips_analysis
    (HttpResult.success (JValue.obj
      [(kData, JValue.obj [(kTimeseries, JValue.arr [])])]))
    (HttpResult.success (JValue.obj
      [(kData, JValue.obj [(kTimeseries, JValue.arr [])])]))
    0 1440 rfl rfl rfl

/-- C10: when a fetch succeeds and the response object contains a `data`
key whose value is falsy under Python truthiness (for example an empty
object or an empty list), `main` takes exactly the fetch-failure branch —
it prints the fetch-failure message and performs no normalization,
analysis, or rendering — even though `fetch_data` returned a non-null
value. -/
theorem falsy_data_skips_run (r1 r2 : HttpResult) (s e : ℚ)
    (h : pyTruthy (fetch_data r1) = false ∨ pyTruthy (fetch_data r2) = false) :
    main_run r1 r2 s e = .fetchFailed := by
  unfold main_run
  rcases h with h | h <;> simp [h]

theorem falsy_data_skips_run_witness :
    main_run (HttpResult.success (JValue.obj [(kData, JValue.arr [])]))
        (HttpResult.success (JValue.obj [(kData, JValue.num 1)]))
        0 1440 = RunOutcome.fetchFailed ∧
    fetch_data (HttpResult.success (JValue.obj [(kData, JValue.arr [])])) ≠
      JValue.null :=
  ⟨falsy_data_skips_run
      (HttpResult.success (JValue.obj [(kData, JValue.arr [])]))
      (HttpResult.success (JValue.obj [(kData, JValue.num 1)]))
      0 1440 (Or.inl rfl),
   fun hc => JValue.noConfusion hc⟩

/-- C2 counterexample: a span of 30 days and one minute exceeds 30 days,
yet `get_valid_datetime` accepts it, because `timedelta.days` floors the
span to whole days (43201 minutes has day component 30, and the code only
rejects when that component exceeds 30). The claim "e is rejected when the
span e − s exceeds 30 days" is therefore false at s = 0, e = 43201. -/
theorem accept_end_accepts_span_over_30_days :
    accept_end 0 43201 = true ∧ (30 * 1440 : ℤ) < 43201 := by decide

/-- C2 amended: for every start `s` and candidate end `e` (minutes), the
end prompt rejects `e` when `e ≤ s`; it rejects `e` when the span is at
least 31 whole days (the floored day count of the span exceeds 30); and it
accepts `e` whenever `s < e` and the span is under 31 days — in particular
a span of exactly 30 days is accepted, but so is any span strictly between
30 and 31 days. -/
theorem accept_end_characterization (s e : ℤ) :
    (e ≤ s → accept_end s e = false) ∧
    (31 * 1440 ≤ e - s → accept_end s e = false) ∧
    (s < e → e - s < 31 * 1440 → accept_end s e = true) := by
  have hfd : Int.fdiv (e - s) 1440 = (e - s) / 1440 :=
    Int.fdiv_eq_ediv _ (by norm_num)
  unfold accept_end
  rw [hfd]
  refine ⟨fun h => by simp [h], fun h => ?_, fun h1 h2 => ?_⟩
  · have hne : ¬ e ≤ s := by omega
    have hdiv : 30 < (e - s) / 1440 := by omega
    simp [hne, hdiv]
  · have hne : ¬ e ≤ s := by omega
    have hdiv : ¬ 30 < (e - s) / 1440 := by omega
    simp [hne, hdiv]

theorem accept_end_characterization_witness : accept_end 0 43200 = true :=
  (accept_end_characterization 0 43200).2.2 (by decide) (by decide)

/-- C6 counterexample: two non-empty normalized tables with disjoint
timestamps produce an empty inner join, and `analyze_regulation` still
reaches the effectiveness computation, whose division is then performed
with a zero divisor (the `none` result of `effectiveness_div` is the
division-by-zero sentinel); the code has no emptiness guard before the
division, so the claim that "the division is not performed when the joined
table has zero rows" is false. -/
theorem effectiveness_unguarded_on_empty_join :
    analysisRows [ImbRow.mk 0 150] [ActRow.mk 60 10 10] = [] ∧
    ([ImbRow.mk 0 150] : List ImbRow) ≠ [] ∧
    ([ActRow.mk 60 10 10] : List ActRow) ≠ [] ∧
    effectiveness_div (analysisRows [ImbRow.mk 0 150] [ActRow.mk 60 10 10]) =
      none := by
  have hrows : analysisRows [ImbRow.mk 0 150] [ActRow.mk 60 10 10] = [] := by
    norm_num [analysisRows, joinOn]
  refine ⟨hrows, by simp, by simp, ?_⟩
  rw [hrows]
  simp [effectiveness_div, pydiv]

/-- C6 amended: the regulation-effectiveness percentage equals
`100 × count(appropriate_regulation) / total_rows` whenever the joined
table is non-empty; when the joined table has zero rows the division is
still reached, with a zero divisor, and has no value — the resulting
failure is contained by the stage's surrounding exception handling rather
than prevented by a guard. -/
theorem effectiveness_characterization (xs : List ImbRow) (ys : List ActRow) :
    (analysisRows xs ys ≠ [] →
      effectiveness_div (analysisRows xs ys) =
        some ((((analysisRows xs ys).countP fun r => r.appropriate_regulation : ℚ)) /
          ((analysisRows xs ys).length : ℚ) * 100)) ∧
    (analysisRows xs ys = [] →
      effectiveness_div (analysisRows xs ys) = none) := by
  constructor
  · intro h
    have hlen : ((analysisRows xs ys).length : ℚ) ≠ 0 :=
      Nat.cast_ne_zero.mpr (List.length_pos.mpr h).ne'
    simp [effectiveness_div, pydiv, hlen]
  · intro h
    rw [h]
    simp [effectiveness_div, pydiv]

theorem effectiveness_characterization_witness :
    effectiveness_div (analysisRows [ImbRow.mk 0 150] [ActRow.mk 0 80 20]) =
      some ((((analysisRows [ImbRow.mk 0 150] [ActRow.mk 0 80 20]).countP
          fun r => r.appropriate_regulation : ℚ)) /
        ((analysisRows [ImbRow.mk 0 150] [ActRow.mk 0 80 20]).length : ℚ) * 100) :=
  (effectiveness_characterization [ImbRow.mk 0 150] [ActRow.mk 0 80 20]).1
    (by norm_num [analysisRows, joinOn, deriveRow])

theorem joinOn_cons {α β : Type} (k1 : α → ℚ) (k2 : β → ℚ) (x : α)
    (xs : List α) (ys : List β) :
    joinOn k1 k2 (x :: xs) ys =
      ((ys.filter fun y => decide (k2 y = k1 x)).map fun y => (x, y)) ++
        joinOn k1 k2 xs ys := rfl

theorem filter_key_eq_nil {β : Type} (k2 : β → ℚ) (c : ℚ) (ys : List β)
    (h : ∀ y ∈ ys, k2 y ≠ c) :
    (ys.filter fun y => decide (k2 y = c)) = [] :=
  List.filter_eq_nil_iff.mpr (by simpa using h)

theorem filter_key_length_le_one {β : Type} (k2 : β → ℚ) (c : ℚ) (ys : List β)
    (hy : (ys.map k2).Nodup) :
    (ys.filter fun y => decide (k2 y = c)).length ≤ 1 := by
  induction ys with
  | nil => simp
  | cons y ys ih =>
      rw [List.map_cons, List.nodup_cons] at hy
      by_cases hc : k2 y = c
      · rw [List.filter_cons_of_pos (by simpa using hc)]
        have hnil : (ys.filter fun y2 => decide (k2 y2 = c)) = [] := by
          apply filter_key_eq_nil
          intro y2 hy2 h2
          apply hy.1
          rw [hc, ← h2]
          exact List.mem_map_of_mem k2 hy2
        rw [hnil]
        simp
      · rw [List.filter_cons_of_neg (by simpa using hc)]
        exact ih hy.2

theorem joinOn_length_le_left {α β : Type} (k1 : α → ℚ) (k2 : β → ℚ)
    (xs : List α) (ys : List β) (hy : (ys.map k2).Nodup) :
    (joinOn k1 k2 xs ys).length ≤ xs.length := by
  induction xs with
  | nil => simp [joinOn]
  | cons x xs ih =>
      rw [joinOn_cons, List.length_append, List.length_map, List.length_cons]
      have h1 := filter_key_length_le_one k2 (k1 x) ys hy
      omega

theorem length_filter_add_le {β : Type} (p q : β → Bool) (ys : List β)
    (h : ∀ y ∈ ys, p y = true → q y = false) :
    (ys.filter p).length + (ys.filter q).length ≤
      (ys.filter fun y => p y || q y).length := by
  induction ys with
  | nil => simp
  | cons y ys ih =>
      have hd := h y (List.mem_cons_self y ys)
      have ih2 := ih fun y2 hy2 => h y2 (List.mem_cons_of_mem y hy2)
      cases hp : p y with
      | true =>
          cases hq : q y with
          | true => exact absurd (hd hp) (by simp [hq])
          | false => simp [List.filter_cons, hp, hq]; omega
      | false =>
          cases hq : q y <;> simp [List.filter_cons, hp, hq] <;> omega

theorem joinOn_length_le_filter {α β : Type} (k1 : α → ℚ) (k2 : β → ℚ)
    (xs : List α) (ys : List β) (hx : (xs.map k1).Nodup) :
    (joinOn k1 k2 xs ys).length ≤
      (ys.filter fun y => decide (k2 y ∈ xs.map k1)).length := by
  induction xs with
  | nil => simp [joinOn]
  | cons x xs ih =>
      rw [List.map_cons, List.nodup_cons] at hx
      rw [joinOn_cons, List.length_append, List.length_map]
      have hdisj : ∀ y ∈ ys, (decide (k2 y = k1 x)) = true →
          (decide (k2 y ∈ xs.map k1)) = false := by
        intro y hy h1
        simp only [decide_eq_true_eq] at h1
        simp only [decide_eq_false_iff_not]
        rw [h1]
        exact hx.1
      have hadd := length_filter_add_le _ _ ys hdisj
      have hcong : (ys.filter fun y =>
            (decide (k2 y = k1 x)) || (decide (k2 y ∈ xs.map k1))) =
          (ys.filter fun y => decide (k2 y ∈ List.map k1 (x :: xs))) := by
        apply List.filter_congr
        intro y hy
        simp [List.mem_cons]
      have hih := ih hx.2
      rw [hcong] at hadd
      omega

theorem joinOn_length_le_right {α β : Type} (k1 : α → ℚ) (k2 : β → ℚ)
    (xs : List α) (ys : List β) (hx : (xs.map k1).Nodup) :
    (joinOn k1 k2 xs ys).length ≤ ys.length :=
  le_trans (joinOn_length_le_filter k1 k2 xs ys hx) (List.length_filter_le _ _)

/-- C5: for every pair of normalized input tables (which, per the data
model, carry pairwise-distinct timestamps), the row count of the
inner-joined analysis table is at most the minimum of the two input
tables' row counts — the inner join never grows rows. -/
theorem analysis_length_le_min (xs : List ImbRow) (ys : List ActRow)
    (hx : (xs.map ImbRow.timestamp).Nodup)
    (hy : (ys.map ActRow.timestamp).Nodup) :
    (analysisRows xs ys).length ≤ min xs.length ys.length := by
  rw [analysisRows, List.length_map]
  refine le_min ?_ ?_
  · exact joinOn_length_le_left _ _ xs ys hy
  · exact joinOn_length_le_right _ _ xs ys hx

theorem analysis_length_le_min_witness :
    (analysisRows [ImbRow.mk 0 1, ImbRow.mk 60 2] [ActRow.mk 60 3 4]).length ≤
      min ([ImbRow.mk 0 1, ImbRow.mk 60 2] : List ImbRow).length
        ([ActRow.mk 60 3 4] : List ActRow).length :=
  analysis_length_le_min [ImbRow.mk 0 1, ImbRow.mk 60 2] [ActRow.mk 60 3 4]
    (by norm_num) (by norm_num)

/-- C8 counterexample: with the same activation table, the fixed-window
variant renders the down-regulation series negated while the interactive
variant renders it as-is, so the two variants do not produce identical
rendered series (their analysis tables also differ: the fixed-window
variant appends `hour` and `day` columns to its CSV). -/
theorem rendered_down_series_differ :
    (rendered_series_v1 [] [ActRow.mk 0 5 20]).2.2 ≠
      (rendered_series_v2 [] [ActRow.mk 0 5 20]).2.2 := by
  norm_num [rendered_series_v1, rendered_series_v2]

/-- C8 amended: given the same normalized tables, the two pipeline
variants compute the same joined rows and derived columns (the
fixed-window variant's rows project onto the interactive variant's rows,
differing only by its extra `hour` and `day` columns), the same
effectiveness summary, and identical rendered imbalance and up-regulation
series; their rendered down-regulation series agree up to the sign flip
the fixed-window variant applies before plotting. -/
theorem variants_agree_modulo_known_differences
    (imb : List ImbRow) (act : List ActRow) :
    (analysisRows_v1 imb act).map AnalysisRowV1.core = analysisRows imb act ∧
    effectiveness_div_v1 (analysisRows_v1 imb act) =
      effectiveness_div (analysisRows imb act) ∧
    (rendered_series_v1 imb act).1 = (rendered_series_v2 imb act).1 ∧
    (rendered_series_v1 imb act).2.1 = (rendered_series_v2 imb act).2.1 ∧
    (rendered_series_v1 imb act).2.2 =
      ((rendered_series_v2 imb act).2.2).map fun p => (p.1, -p.2) := by
  have hcount :
      ((analysisRows_v1 imb act).countP fun r => r.core.appropriate_regulation) =
        ((analysisRows imb act).countP fun r => r.appropriate_regulation) := by
    simp only [analysisRows_v1, analysisRows, List.countP_map]
    rfl
  have hlen : (analysisRows_v1 imb act).length = (analysisRows imb act).length := by
    simp [analysisRows_v1, analysisRows]
  refine ⟨?_, ?_, rfl, rfl, ?_⟩
  · simp [analysisRows_v1, analysisRows, List.map_map, Function.comp]
  · simp only [effectiveness_div_v1, effectiveness_div, hcount, hlen]
  · simp [rendered_series_v1, rendered_series_v2, List.map_map, Function.comp]
